import Mathlib

/-!
Verification of the point-cloud compute/render pipeline of the
wgpu-ts-renderer repository: a shallow embedding of the transform compute
kernel, the dispatch planner, the colour-science kernels
(sRGB to XYZ to CIELUV and the inverse chain), the CIELUV grid generator,
the GPU buffer facade, and the PointCloud constructor, together with
theorems settling the specification claims about them.

Machine floats are modelled as real numbers; u32 quantities as Nat.
-/

/-- Three f32 components, as used by the WGSL vec3 of the kernels. -/
@[ext]
structure Vec3 where
  x : ℝ
  y : ℝ
  z : ℝ

@[simp] theorem Vec3.x_mk (a b c : ℝ) : (Vec3.mk a b c).x = a := rfl

@[simp] theorem Vec3.y_mk (a b c : ℝ) : (Vec3.mk a b c).y = b := rfl

@[simp] theorem Vec3.z_mk (a b c : ℝ) : (Vec3.mk a b c).z = c := rfl

/-- The Transform uniform struct of the transform kernel
(translation, rotation as Euler radians, scale); padding floats omitted
since they are never read. -/
structure TransformU where
  translation : Vec3
  rotation : Vec3
  scale : Vec3

noncomputable section

open Real

/-- The rotatePoint function of the transform kernel (pointcloud.js
variant): rotation matrices applied in XYZ order, where an axis whose
angle is exactly zero is skipped entirely. -/
def rotatePoint (p r : Vec3) : Vec3 :=
  let res0 := p
  let res1 :=
    if r.x ≠ 0 then
      Vec3.mk res0.x
        (res0.y * Real.cos r.x - res0.z * Real.sin r.x)
        (res0.y * Real.sin r.x + res0.z * Real.cos r.x)
    else res0
  let res2 :=
    if r.y ≠ 0 then
      Vec3.mk (res1.x * Real.cos r.y + res1.z * Real.sin r.y)
        res1.y
        (-res1.x * Real.sin r.y + res1.z * Real.cos r.y)
    else res1
  let res3 :=
    if r.z ≠ 0 then
      Vec3.mk (res2.x * Real.cos r.z - res2.y * Real.sin r.z)
        (res2.x * Real.sin r.z + res2.y * Real.cos r.z)
        res2.z
    else res2
  res3

/-- The rotatePoint function of the pointcloud.ts variant: the same three
rotations applied unconditionally (cos and sin always evaluated). -/
def rotatePointUncond (p r : Vec3) : Vec3 :=
  let res1 :=
    Vec3.mk p.x
      (p.y * Real.cos r.x - p.z * Real.sin r.x)
      (p.y * Real.sin r.x + p.z * Real.cos r.x)
  let res2 :=
    Vec3.mk (res1.x * Real.cos r.y + res1.z * Real.sin r.y)
      res1.y
      (-res1.x * Real.sin r.y + res1.z * Real.cos r.y)
  Vec3.mk (res2.x * Real.cos r.z - res2.y * Real.sin r.z)
    (res2.x * Real.sin r.z + res2.y * Real.cos r.z)
    res2.z

/-- Rotation about the X axis, stated the way the specification words it. -/
def rotX (a : ℝ) (p : Vec3) : Vec3 :=
  Vec3.mk p.x (p.y * Real.cos a - p.z * Real.sin a)
    (p.y * Real.sin a + p.z * Real.cos a)

/-- Rotation about the Y axis, stated the way the specification words it. -/
def rotY (a : ℝ) (p : Vec3) : Vec3 :=
  Vec3.mk (p.x * Real.cos a + p.z * Real.sin a) p.y
    (-p.x * Real.sin a + p.z * Real.cos a)

/-- Rotation about the Z axis, stated the way the specification words it. -/
def rotZ (a : ℝ) (p : Vec3) : Vec3 :=
  Vec3.mk (p.x * Real.cos a - p.y * Real.sin a)
    (p.x * Real.sin a + p.y * Real.cos a) p.z

theorem rotatePointUncond_eq (p r : Vec3) :
    rotatePointUncond p r = rotZ r.z (rotY r.y (rotX r.x p)) := rfl

/-- Skipping a zero-angle axis agrees with rotating by a zero angle:
the branchy kernel computes the XYZ-order Euler rotation. -/
theorem rotatePoint_eq (p r : Vec3) :
    rotatePoint p r = rotZ r.z (rotY r.y (rotX r.x p)) := by
  unfold rotatePoint rotX rotY rotZ
  by_cases hx : r.x = 0 <;> by_cases hy : r.y = 0 <;> by_cases hz : r.z = 0 <;>
    simp [hx, hy, hz]

/-- Per-point body of the transform kernel after the rotation:
componentwise multiplication by scale, then addition of translation. -/
def transformPoint (t : TransformU) (p : Vec3) : Vec3 :=
  let rotated := rotatePoint p t.rotation
  Vec3.mk (rotated.x * t.scale.x + t.translation.x)
    (rotated.y * t.scale.y + t.translation.y)
    (rotated.z * t.scale.z + t.translation.z)

/-- The vertex buffer as a flat array of f32, indexed by Nat.
The transform kernel, aggregated over all invocations: every point index
below the bounds check arrayLength / 6 = count has floats 6i, 6i+1, 6i+2
replaced by the transformed position; all other floats (in particular the
three colour floats of each record) are left untouched.  Invocations with
index at or above count return early. -/
def applyTransformBuf (count : ℕ) (t : TransformU) (buf : ℕ → ℝ) : ℕ → ℝ :=
  fun j =>
    let index := j / 6
    if index < count then
      let position := Vec3.mk (buf (6 * index)) (buf (6 * index + 1)) (buf (6 * index + 2))
      let transformed := transformPoint t position
      if j % 6 = 0 then transformed.x
      else if j % 6 = 1 then transformed.y
      else if j % 6 = 2 then transformed.z
      else buf j
    else buf j

end

/-- The dispatch planner inside PointCloud.compute:
totalWorkgroups = ceil(workItems / workgroupSize),
xGroups = min(totalWorkgroups, 65535), yGroups = ceil(totalWorkgroups / 65535). -/
def computeDispatch (workItems workgroupSize : ℕ) : ℕ × ℕ :=
  let totalWorkgroups := (workItems + workgroupSize - 1) / workgroupSize
  (min totalWorkgroups 65535, (totalWorkgroups + 65534) / 65535)

/-- The flat index recovered by every kernel from its invocation id:
global_id.x + global_id.y * 65535 * workgroupSize. -/
def flatIndex (gx gy workgroupSize : ℕ) : ℕ := gx + gy * 65535 * workgroupSize

/-- Ceiling division by a positive number covers the dividend. -/
theorem le_mul_ceil_div (a b : ℕ) (hb : 1 ≤ b) : a ≤ b * ((a + b - 1) / b) := by
  have h := Nat.div_add_mod (a + b - 1) b
  have hm : (a + b - 1) % b < b := Nat.mod_lt _ hb
  set q := (a + b - 1) / b with hq
  set r := (a + b - 1) % b with hr
  clear_value q r
  generalize hp : b * q = p at h ⊢
  omega

/-- Shared helper: the planner covers all work items and respects the
per-dimension limit. -/
theorem computeDispatch_covers (w s : ℕ) (hw : 1 ≤ w) (hs : 1 ≤ s) :
    (computeDispatch w s).1 ≤ 65535 ∧
      w ≤ (computeDispatch w s).1 * (computeDispatch w s).2 * s := by
  have hdef : computeDispatch w s =
      (min ((w + s - 1) / s) 65535, ((w + s - 1) / s + 65534) / 65535) := rfl
  rw [hdef]
  set t := (w + s - 1) / s with ht
  dsimp only
  have hwt : w ≤ s * t := le_mul_ceil_div w s hs
  have htpos : 1 ≤ t := by
    rw [ht, Nat.le_div_iff_mul_le (by omega : 0 < s)]
    omega
  have hy : t ≤ 65535 * ((t + 65534) / 65535) := by
    have := le_mul_ceil_div t 65535 (by norm_num)
    have harg : t + 65535 - 1 = t + 65534 := by omega
    rwa [harg] at this
  have hypos : 1 ≤ (t + 65534) / 65535 := by
    rw [Nat.le_div_iff_mul_le (by norm_num)]
    omega
  refine ⟨min_le_right _ _, ?_⟩
  rcases le_or_lt t 65535 with hle | hgt
  · rw [min_eq_left hle]
    calc w ≤ s * t := hwt
      _ = t * 1 * s := by ring
      _ ≤ t * ((t + 65534) / 65535) * s := by
          exact Nat.mul_le_mul_right s (Nat.mul_le_mul_left t hypos)
  · rw [min_eq_right (le_of_lt hgt)]
    calc w ≤ s * t := hwt
      _ ≤ s * (65535 * ((t + 65534) / 65535)) := Nat.mul_le_mul_left s hy
      _ = 65535 * ((t + 65534) / 65535) * s := by ring

/-- C2: For every workItems at least 1 and the fixed workgroupSize, the
dispatch planner computes totalGroups = ceil(workItems/workgroupSize),
groupsX = min(totalGroups, 65535), groupsY = ceil(totalGroups/65535);
consequently groupsX is at most 65535 and
groupsX * groupsY * workgroupSize is at least workItems, so every work
item is covered by some invocation. -/
theorem c2_dispatch_planner (workItems workgroupSize : ℕ)
    (hw : 1 ≤ workItems) (hs : 1 ≤ workgroupSize) :
    (computeDispatch workItems workgroupSize).1 ≤ 65535 ∧
      workItems ≤ (computeDispatch workItems workgroupSize).1 *
        (computeDispatch workItems workgroupSize).2 * workgroupSize :=
  computeDispatch_covers workItems workgroupSize hw hs

/-- Witness for C2 at workItems = 65535 * 64 + 1 and workgroupSize = 64. -/
theorem c2_dispatch_planner_witness :
    1 ≤ 65535 * 64 + 1 ∧ 1 ≤ 64 ∧
      ((computeDispatch (65535 * 64 + 1) 64).1 ≤ 65535 ∧
        65535 * 64 + 1 ≤ (computeDispatch (65535 * 64 + 1) 64).1 *
          (computeDispatch (65535 * 64 + 1) 64).2 * 64) :=
  ⟨by norm_num, by norm_num,
    c2_dispatch_planner (65535 * 64 + 1) 64 (by norm_num) (by norm_num)⟩

/-- Shared helper: the effect of one transform dispatch on the six floats
of record i, for any in-range point index i. -/
theorem applyTransformBuf_record (count : ℕ) (t : TransformU) (buf : ℕ → ℝ)
    (i : ℕ) (hi : i < count) :
    applyTransformBuf count t buf (6 * i) =
        (transformPoint t (Vec3.mk (buf (6 * i)) (buf (6 * i + 1)) (buf (6 * i + 2)))).x ∧
      applyTransformBuf count t buf (6 * i + 1) =
        (transformPoint t (Vec3.mk (buf (6 * i)) (buf (6 * i + 1)) (buf (6 * i + 2)))).y ∧
      applyTransformBuf count t buf (6 * i + 2) =
        (transformPoint t (Vec3.mk (buf (6 * i)) (buf (6 * i + 1)) (buf (6 * i + 2)))).z ∧
      applyTransformBuf count t buf (6 * i + 3) = buf (6 * i + 3) ∧
      applyTransformBuf count t buf (6 * i + 4) = buf (6 * i + 4) ∧
      applyTransformBuf count t buf (6 * i + 5) = buf (6 * i + 5) := by
  unfold applyTransformBuf
  have h0 : 6 * i / 6 = i := by omega
  have h1 : (6 * i + 1) / 6 = i := by omega
  have h2 : (6 * i + 2) / 6 = i := by omega
  have h3 : (6 * i + 3) / 6 = i := by omega
  have h4 : (6 * i + 4) / 6 = i := by omega
  have h5 : (6 * i + 5) / 6 = i := by omega
  have m0 : 6 * i % 6 = 0 := by omega
  have m1 : (6 * i + 1) % 6 = 1 := by omega
  have m2 : (6 * i + 2) % 6 = 2 := by omega
  have m3 : (6 * i + 3) % 6 = 3 := by omega
  have m4 : (6 * i + 4) % 6 = 4 := by omega
  have m5 : (6 * i + 5) % 6 = 5 := by omega
  refine ⟨?_, ?_, ?_, ?_, ?_, ?_⟩ <;>
    simp [h0, h1, h2, h3, h4, h5, m0, m1, m2, m3, m4, m5, hi]

/-- C1: For every point index i in [0, count), applyTransform(translation,
eulerRotation, scale) replaces the stored position p of point i by the
XYZ-order Euler rotation of p (about X, then Y, then Z), multiplied
componentwise by scale and then added to translation, and leaves the
three colour floats of the 6-float record of that point unchanged. -/
theorem c1_transform_kernel (count : ℕ) (t : TransformU) (buf : ℕ → ℝ)
    (i : ℕ) (hi : i < count) :
    applyTransformBuf count t buf (6 * i) =
        (rotZ t.rotation.z (rotY t.rotation.y (rotX t.rotation.x
          (Vec3.mk (buf (6 * i)) (buf (6 * i + 1)) (buf (6 * i + 2)))))).x *
          t.scale.x + t.translation.x ∧
      applyTransformBuf count t buf (6 * i + 1) =
        (rotZ t.rotation.z (rotY t.rotation.y (rotX t.rotation.x
          (Vec3.mk (buf (6 * i)) (buf (6 * i + 1)) (buf (6 * i + 2)))))).y *
          t.scale.y + t.translation.y ∧
      applyTransformBuf count t buf (6 * i + 2) =
        (rotZ t.rotation.z (rotY t.rotation.y (rotX t.rotation.x
          (Vec3.mk (buf (6 * i)) (buf (6 * i + 1)) (buf (6 * i + 2)))))).z *
          t.scale.z + t.translation.z ∧
      applyTransformBuf count t buf (6 * i + 3) = buf (6 * i + 3) ∧
      applyTransformBuf count t buf (6 * i + 4) = buf (6 * i + 4) ∧
      applyTransformBuf count t buf (6 * i + 5) = buf (6 * i + 5) := by
  obtain ⟨h0, h1, h2, h3, h4, h5⟩ := applyTransformBuf_record count t buf i hi
  refine ⟨?_, ?_, ?_, h3, h4, h5⟩ <;>
    simp [h0, h1, h2, transformPoint, rotatePoint_eq]

/-- Witness for C1 at count = 1, i = 0, a concrete transform and buffer. -/
theorem c1_transform_kernel_witness :
    0 < 1 ∧
      (applyTransformBuf 1 (TransformU.mk (Vec3.mk 1 2 3) (Vec3.mk 0 0 0) (Vec3.mk 1 1 1))
          (fun n => (n : ℝ)) (6 * 0) =
        (rotZ (Vec3.mk 0 0 0).z (rotY (Vec3.mk 0 0 0).y (rotX (Vec3.mk 0 0 0).x
          (Vec3.mk ((6 * 0 : ℕ) : ℝ) ((6 * 0 + 1 : ℕ) : ℝ) ((6 * 0 + 2 : ℕ) : ℝ))))).x *
          (Vec3.mk 1 1 1).x + (Vec3.mk 1 2 3).x ∧
      applyTransformBuf 1 (TransformU.mk (Vec3.mk 1 2 3) (Vec3.mk 0 0 0) (Vec3.mk 1 1 1))
          (fun n => (n : ℝ)) (6 * 0 + 1) =
        (rotZ (Vec3.mk 0 0 0).z (rotY (Vec3.mk 0 0 0).y (rotX (Vec3.mk 0 0 0).x
          (Vec3.mk ((6 * 0 : ℕ) : ℝ) ((6 * 0 + 1 : ℕ) : ℝ) ((6 * 0 + 2 : ℕ) : ℝ))))).y *
          (Vec3.mk 1 1 1).y + (Vec3.mk 1 2 3).y ∧
      applyTransformBuf 1 (TransformU.mk (Vec3.mk 1 2 3) (Vec3.mk 0 0 0) (Vec3.mk 1 1 1))
          (fun n => (n : ℝ)) (6 * 0 + 2) =
        (rotZ (Vec3.mk 0 0 0).z (rotY (Vec3.mk 0 0 0).y (rotX (Vec3.mk 0 0 0).x
          (Vec3.mk ((6 * 0 : ℕ) : ℝ) ((6 * 0 + 1 : ℕ) : ℝ) ((6 * 0 + 2 : ℕ) : ℝ))))).z *
          (Vec3.mk 1 1 1).z + (Vec3.mk 1 2 3).z ∧
      applyTransformBuf 1 (TransformU.mk (Vec3.mk 1 2 3) (Vec3.mk 0 0 0) (Vec3.mk 1 1 1))
          (fun n => (n : ℝ)) (6 * 0 + 3) = ((6 * 0 + 3 : ℕ) : ℝ) ∧
      applyTransformBuf 1 (TransformU.mk (Vec3.mk 1 2 3) (Vec3.mk 0 0 0) (Vec3.mk 1 1 1))
          (fun n => (n : ℝ)) (6 * 0 + 4) = ((6 * 0 + 4 : ℕ) : ℝ) ∧
      applyTransformBuf 1 (TransformU.mk (Vec3.mk 1 2 3) (Vec3.mk 0 0 0) (Vec3.mk 1 1 1))
          (fun n => (n : ℝ)) (6 * 0 + 5) = ((6 * 0 + 5 : ℕ) : ℝ)) :=
  ⟨by norm_num,
    c1_transform_kernel 1 (TransformU.mk (Vec3.mk 1 2 3) (Vec3.mk 0 0 0) (Vec3.mk 1 1 1))
      (fun n => (n : ℝ)) 0 (by norm_num)⟩

/-- C7: Applying the identity transform (zero translation, zero rotation,
unit scale) leaves every stored float of the point buffer unchanged: the
zero-angle rotation branches are skipped, so zero rotation is a true
no-op and the buffer is exactly equal to its value before the call. -/
theorem c7_identity_transform_noop (count : ℕ) (buf : ℕ → ℝ) :
    applyTransformBuf count
      (TransformU.mk (Vec3.mk 0 0 0) (Vec3.mk 0 0 0) (Vec3.mk 1 1 1)) buf = buf := by
  funext j
  simp only [applyTransformBuf]
  by_cases hc : j / 6 < count
  · have hsplit : j % 6 = 0 ∨ j % 6 = 1 ∨ j % 6 = 2 ∨ j % 6 = 3 ∨ j % 6 = 4 ∨ j % 6 = 5 := by
      omega
    have hPoint : ∀ p : Vec3,
        transformPoint (TransformU.mk (Vec3.mk 0 0 0) (Vec3.mk 0 0 0) (Vec3.mk 1 1 1)) p = p := by
      intro p
      simp [transformPoint, rotatePoint]
    rcases hsplit with h | h | h | h | h | h <;>
      rw [if_pos hc] <;> simp only [h, hPoint] <;> norm_num <;>
      (first
        | rfl
        | (congr 1; omega))
  · rw [if_neg hc]

noncomputable section

/-- The per-component sRGB gamma correction applied inside rgb_to_xyz:
c / 12.92 below the 0.04045 threshold, else ((c + 0.055) / 1.055)
raised to the power 2.4. -/
def gammaCorrect (c : ℝ) : ℝ :=
  if c ≤ 0.04045 then c / 12.92 else ((c + 0.055) / 1.055) ^ (2.4 : ℝ)

/-- The rgb_to_xyz kernel function: sRGB gamma correction on each
component, then the RGB-to-XYZ matrix transformation. -/
def rgb_to_xyz (rgb : Vec3) : Vec3 :=
  let r := gammaCorrect rgb.x
  let g := gammaCorrect rgb.y
  let b := gammaCorrect rgb.z
  Vec3.mk (0.4124564 * r + 0.3575761 * g + 0.1804375 * b)
    (0.2126729 * r + 0.7151522 * g + 0.0721750 * b)
    (0.0193339 * r + 0.1191920 * g + 0.9503041 * b)

/-- The matrix rows of rgb_to_xyz taken alone, applied to an already
linear RGB triple (the linear_to_xyz of the specification, skipping the gamma
curve). -/
def linear_to_xyz (rgb : Vec3) : Vec3 :=
  Vec3.mk (0.4124564 * rgb.x + 0.3575761 * rgb.y + 0.1804375 * rgb.z)
    (0.2126729 * rgb.x + 0.7151522 * rgb.y + 0.0721750 * rgb.z)
    (0.0193339 * rgb.x + 0.1191920 * rgb.y + 0.9503041 * rgb.z)

/-- The xyz_to_luv kernel function, reference white D65.  The exponent
3.0 of pow(6.0/29.0, 3.0) is written as a natural power; the cube root
pow(y, 1.0/3.0) as a real power. -/
def xyz_to_luv (xyz : Vec3) : Vec3 :=
  let Xn : ℝ := 0.95047
  let Yn : ℝ := 1.00000
  let Zn : ℝ := 1.08883
  let u_prime_ref_white := (4 * Xn) / (Xn + 15 * Yn + 3 * Zn)
  let v_prime_ref_white := (9 * Yn) / (Xn + 15 * Yn + 3 * Zn)
  let denominator := xyz.x + 15 * xyz.y + 3 * xyz.z
  let u_prime := if denominator > 0 then (4 * xyz.x) / denominator else u_prime_ref_white
  let v_prime := if denominator > 0 then (9 * xyz.y) / denominator else v_prime_ref_white
  let y_normalized := xyz.y / Yn
  let L_star :=
    if y_normalized > ((6 : ℝ) / 29) ^ (3 : ℕ) then
      116 * y_normalized ^ ((1 : ℝ) / 3) - 16
    else 903.3 * y_normalized
  Vec3.mk L_star (13 * L_star * (u_prime - u_prime_ref_white))
    (13 * L_star * (v_prime - v_prime_ref_white))

/-- The luv_to_xyz kernel function, with the hard-coded D65 chromaticity
constants u_n = 0.1978 and v_n = 0.4683, the L greater than 8 branch of
the inverse lightness, and the division guards at L = 0 and at
v_prime = 0. -/
def luv_to_xyz (luv : Vec3) : Vec3 :=
  let u_n : ℝ := 0.1978
  let v_n : ℝ := 0.4683
  let l := luv.x
  let u := luv.y
  let v := luv.z
  let Y := if l > 8 then ((l + 16) / 116) ^ (3 : ℕ) else l / 903.3
  let u_prime := if l ≠ 0 then (u + 13 * l * u_n) / (13 * l) else 0
  let v_prime := if l ≠ 0 then (v + 13 * l * v_n) / (13 * l) else 0
  let X := if v_prime ≠ 0 then Y * (9 * u_prime / (4 * v_prime)) else 0
  let Z := if v_prime ≠ 0 then Y * (12 - 3 * u_prime - 20 * v_prime) / (4 * v_prime) else 0
  Vec3.mk X Y Z

/-- The xyz_to_rgb kernel function: the four-digit inverse matrix, with
no gamma re-encoding. -/
def xyz_to_rgb (xyz : Vec3) : Vec3 :=
  Vec3.mk (3.2406 * xyz.x - 1.5372 * xyz.y - 0.4986 * xyz.z)
    (-0.9689 * xyz.x + 1.8758 * xyz.y + 0.0415 * xyz.z)
    (0.0557 * xyz.x - 0.2040 * xyz.y + 1.0570 * xyz.z)

/-- The luv_to_rgb wrapper: luv_to_xyz then xyz_to_rgb. -/
def luv_to_rgb (luv : Vec3) : Vec3 := xyz_to_rgb (luv_to_xyz luv)

/-- The full conversion chain sRGB to XYZ to CIELUV and back. -/
def rgb_to_luv_to_rgb (rgb : Vec3) : Vec3 := luv_to_rgb (xyz_to_luv (rgb_to_xyz rgb))

end

/-- C6: xyz_to_luv applied to the all-zero input performs no division by
zero: the denominator x + 15y + 3z is not positive there, so the
reference-white fallback branch is taken, and the result is exactly
L = 0, u = 0, v = 0. -/
theorem c6_black_point_safety :
    ¬ ((0 : ℝ) + 15 * 0 + 3 * 0 > 0) ∧ xyz_to_luv (Vec3.mk 0 0 0) = Vec3.mk 0 0 0 := by
  constructor
  · norm_num
  · simp only [xyz_to_luv]
    norm_num

/-- C5 counterexample: at the linear RGB input (1,0,0), the round trip
through the matrix pair linear_to_xyz then xyz_to_rgb misses the input by
more than 1e-5 in the first component (the exact error is 4.554542e-5),
so the claimed 1e-5 absolute tolerance does not hold. -/
theorem c5_counterexample :
    ¬ |(xyz_to_rgb (linear_to_xyz (Vec3.mk 1 0 0))).x - 1| ≤ 1e-5 := by
  have hval : (xyz_to_rgb (linear_to_xyz (Vec3.mk 1 0 0))).x = 1.00004554542 := by
    simp only [xyz_to_rgb, linear_to_xyz]
    norm_num
  intro h
  rw [hval] at h
  have h2 := (abs_le.mp h).2
  norm_num at h2

/-- C5 (amended): for every linear RGB triple with components in [0,1],
applying linear_to_xyz and then the xyz_to_rgb inverse matrix reproduces
the input within 3e-4 absolute error per component (1e-5 is too tight:
the four-digit inverse matrix leaves a residue of up to about 2.4e-4). -/
theorem c5_linear_roundtrip (r g b : ℝ)
    (hr0 : 0 ≤ r) (hr1 : r ≤ 1) (hg0 : 0 ≤ g) (hg1 : g ≤ 1)
    (hb0 : 0 ≤ b) (hb1 : b ≤ 1) :
    |(xyz_to_rgb (linear_to_xyz (Vec3.mk r g b))).x - r| ≤ 3e-4 ∧
      |(xyz_to_rgb (linear_to_xyz (Vec3.mk r g b))).y - g| ≤ 3e-4 ∧
      |(xyz_to_rgb (linear_to_xyz (Vec3.mk r g b))).z - b| ≤ 3e-4 := by
  simp only [xyz_to_rgb, linear_to_xyz, Vec3.x_mk, Vec3.y_mk, Vec3.z_mk]
  refine ⟨?_, ?_, ?_⟩ <;> rw [abs_le] <;> constructor <;> nlinarith

/-- Witness for the amended C5 at the input (1, 0, 0). -/
theorem c5_linear_roundtrip_witness :
    (0 : ℝ) ≤ 1 ∧ (1 : ℝ) ≤ 1 ∧ (0 : ℝ) ≤ 0 ∧ (0 : ℝ) ≤ 1 ∧
      (|(xyz_to_rgb (linear_to_xyz (Vec3.mk 1 0 0))).x - 1| ≤ 3e-4 ∧
        |(xyz_to_rgb (linear_to_xyz (Vec3.mk 1 0 0))).y - 0| ≤ 3e-4 ∧
        |(xyz_to_rgb (linear_to_xyz (Vec3.mk 1 0 0))).z - 0| ≤ 3e-4) :=
  ⟨by norm_num, by norm_num, le_refl 0, by norm_num,
    c5_linear_roundtrip 1 0 0 (by norm_num) (by norm_num) (by norm_num)
      (by norm_num) (by norm_num) (by norm_num)⟩

set_option maxHeartbeats 2000000 in
/-- C4: the full chain rgb_to_xyz, xyz_to_luv, luv_to_rgb does NOT
reproduce the input within 1e-3.  At the in-gamut input
(0.04, 0.04, 0.04) the chain returns about 0.00309 in each component:
xyz_to_rgb applies only the inverse matrix and never re-applies the sRGB
gamma encoding, so the chain lands on the linearized value of the input
(0.04 / 12.92), an absolute error of about 0.0369. -/
theorem c4_luv_roundtrip_fails :
    ¬ |(rgb_to_luv_to_rgb (Vec3.mk 0.04 0.04 0.04)).x - 0.04| ≤ 1e-3 := by
  have hval : (rgb_to_luv_to_rgb (Vec3.mk 0.04 0.04 0.04)).x < 0.039 := by
    simp only [rgb_to_luv_to_rgb, luv_to_rgb, xyz_to_rgb, luv_to_xyz, xyz_to_luv,
      rgb_to_xyz, gammaCorrect, Vec3.x_mk, Vec3.y_mk, Vec3.z_mk]
    norm_num
  intro h
  have h1 := (abs_le.mp h).1
  have : (0.039 : ℝ) ≤ (rgb_to_luv_to_rgb (Vec3.mk 0.04 0.04 0.04)).x := by linarith
  linarith

/-- The guard of the ComputeRGBCube kernel of LinearRGBCube: it returns
early iff the flat index is at least arrayLength of the vertices buffer,
which is count * 6 floats, NOT the point count.  True means the
invocation proceeds to its writes. -/
def rgbCubeGuardPasses (count index : ℕ) : Bool := decide (index < count * 6)

/-- The float offsets the ComputeRGBCube kernel writes for a passing
invocation: the six floats of record index, at pos_index = index * 6. -/
def rgbCubeWriteOffsets (index : ℕ) : List ℕ :=
  [6 * index, 6 * index + 1, 6 * index + 2, 6 * index + 3, 6 * index + 4, 6 * index + 5]

/-- C3 fails on the code: the ComputeRGBCube kernel bounds-checks its
flat index against arrayLength of the vertex buffer (count * 6 floats)
instead of the point count.  With bitDepth 2 the cloud has 64 points;
generateCloud dispatches compute over 64 work items, the planner launches
1 x 1 workgroups of 256 invocations, so invocation index 64 runs; the
guard lets it through (64 < 384), and it then writes the six floats at
offsets 384..389, all outside the count * 6 = 384-float vertex buffer,
i.e. a record outside [0, count). -/
theorem c3_rgbcube_out_of_bounds :
    computeDispatch 64 256 = (1, 1) ∧
      flatIndex 64 0 256 = 64 ∧ 64 < 1 * 256 ∧
      rgbCubeGuardPasses 64 64 = true ∧
      (∀ o ∈ rgbCubeWriteOffsets 64, 64 * 6 ≤ o) ∧ ¬ 64 < 64 := by
  decide

/-- The size rounding of Renderer.createGPUBuffer: sizes are rounded up
to a multiple of 4 bytes. -/
def roundUp4 (size : ℕ) : ℕ := if size % 4 = 0 then size else size + (4 - size % 4)

/-- Renderer.createGPUBuffer, modelled on byte sizes and Float32Array
element lists (each element is 4 bytes; element values are uninterpreted
rationals).  Returns the byte size of the created buffer and the data
written into it (none when no data was supplied).  When data is supplied
whose byte length differs from the rounded size, the source allocates
new Float32Array(size), i.e. an array with SIZE ELEMENTS (4 * size
bytes), zero-filled, and copies the data into its front; the buffer is
then created with the byte length of that padded array. -/
def createGPUBuffer (data : Option (List ℚ)) (size : ℕ) : ℕ × Option (List ℚ) :=
  let s := roundUp4 size
  match data with
  | none => (s, none)
  | some d =>
    let padded := if d.length * 4 ≠ s then d ++ List.replicate (s - d.length) 0 else d
    (padded.length * 4, some padded)

/-- C9 fails on the code: for requested size 10 with a 2-element
(8-byte) Float32Array, the rounded size is 12 bytes, but the padding
branch allocates new Float32Array(12) - 12 ELEMENTS, i.e. 48 bytes - so
the created buffer has size 48, not the rounded size 12 (the trailing
elements of the copy are zero, but the size contract is violated). -/
theorem c9_createBuffer_padding_bug :
    roundUp4 10 = 12 ∧
      createGPUBuffer (some [1, 2]) 10 =
        (48, some ([1, 2] ++ List.replicate 10 0)) ∧
      (48 : ℕ) ≠ roundUp4 10 := by
  decide

/-- The observable allocations of the PointCloud constructor: the vertex
buffer of numPoints * 6 floats at 4 bytes each, the 48-byte transform
uniform buffer, and the 64-byte model matrix buffer.  The constructor is
a total function: the source performs no comparison against any device
limit and has no failure path. -/
def pointCloudConstruct (numPoints : ℕ) : ℕ × ℕ × ℕ :=
  (numPoints * 6 * 4, 48, 64)

/-- C10 fails on the code: constructing a PointCloud with 6,000,000
points allocates a 144,000,000-byte vertex buffer, exceeding the default
WebGPU maxStorageBufferBindingSize of 134,217,728 bytes, yet the
constructor (a total function with no error path) simply proceeds: no
construction-time check or reported failure exists in the source. -/
theorem c10_no_limit_check :
    pointCloudConstruct 6000000 = (144000000, 48, 64) ∧
      134217728 < 144000000 := by
  constructor
  · rfl
  · norm_num

/-- The grid size recovered inside the rgbGridKernel:
u32(pow(f32(arrayLength / 6), 1/3)), i.e. the truncated real cube root
of the point count. -/
noncomputable def gridSizeOf (count : ℕ) : ℕ :=
  Nat.floor (((count : ℝ)) ^ ((1 : ℝ) / 3))

/-- The grid coordinate triple of point i from the specification, normalized to
[0,1]: (i mod n, (i / n) mod n, i / n^2) each divided by n - 1. -/
noncomputable def gridRGB (n i : ℕ) : Vec3 :=
  Vec3.mk (((i % n : ℕ) : ℝ) / ((n - 1 : ℕ) : ℝ))
    (((i / n % n : ℕ) : ℝ) / ((n - 1 : ℕ) : ℝ))
    (((i / (n * n) : ℕ) : ℝ) / ((n - 1 : ℕ) : ℝ))

/-- Componentwise scaling by 0.01 (the kernel stores luv * 0.01). -/
noncomputable def scale001 (v : Vec3) : Vec3 :=
  Vec3.mk (v.x * 0.01) (v.y * 0.01) (v.z * 0.01)

/-- The rgbGridKernel of CIELUVPointCloud, aggregated over all
invocations: every point index below the bounds check count derives its
RGB from its grid coordinates, converts it through rgb_to_xyz and
xyz_to_luv, stores the LUV value scaled by 0.01 in floats 6i..6i+2 and
the original RGB in floats 6i+3..6i+5; out-of-range invocations return
early. -/
noncomputable def rgbGridKernelBuf (count : ℕ) (buf : ℕ → ℝ) : ℕ → ℝ := fun j =>
  let index := j / 6
  let grid_size := gridSizeOf count
  if index < count then
    let r : ℝ := ((index % grid_size : ℕ) : ℝ) / ((grid_size - 1 : ℕ) : ℝ)
    let g : ℝ := ((index / grid_size % grid_size : ℕ) : ℝ) / ((grid_size - 1 : ℕ) : ℝ)
    let b : ℝ := ((index / (grid_size * grid_size) : ℕ) : ℝ) / ((grid_size - 1 : ℕ) : ℝ)
    let luv := xyz_to_luv (rgb_to_xyz (Vec3.mk r g b))
    if j % 6 = 0 then luv.x * 0.01
    else if j % 6 = 1 then luv.y * 0.01
    else if j % 6 = 2 then luv.z * 0.01
    else if j % 6 = 3 then r
    else if j % 6 = 4 then g
    else b
  else buf j

/-- The CIELUVPointCloud constructor point count: gridSize cubed. -/
def ciePointCount (gridSize : ℕ) : ℕ := gridSize * gridSize * gridSize

/-- CIELUVPointCloud.generateCloud: run the rgbGridKernel over the
vertex buffer, then rotate(0, 0, pi/2), i.e. one transform dispatch with
zero translation, rotation (0, 0, pi/2) and unit scale. -/
noncomputable def generateCloudCIELUV (gridSize : ℕ) (buf : ℕ → ℝ) : ℕ → ℝ :=
  applyTransformBuf (ciePointCount gridSize)
    (TransformU.mk (Vec3.mk 0 0 0) (Vec3.mk 0 0 (Real.pi / 2)) (Vec3.mk 1 1 1))
    (rgbGridKernelBuf (ciePointCount gridSize) buf)

/-- The truncated real cube root of a cube recovers the grid size. -/
theorem gridSizeOf_cube (n : ℕ) : gridSizeOf (n * n * n) = n := by
  unfold gridSizeOf
  have h : (((n * n * n : ℕ) : ℝ)) ^ ((1 : ℝ) / 3) = (n : ℝ) := by
    push_cast
    rw [show (n : ℝ) * n * n = (n : ℝ) ^ (3 : ℕ) by ring]
    rw [← Real.rpow_natCast (n : ℝ) 3]
    rw [← Real.rpow_mul (Nat.cast_nonneg n)]
    norm_num
  rw [h, Nat.floor_natCast]

/-- Shared helper: the six floats of record i written by the
rgbGridKernel, for an in-range point index. -/
theorem rgbGridKernelBuf_record (count : ℕ) (buf : ℕ → ℝ) (i : ℕ) (hi : i < count) :
    rgbGridKernelBuf count buf (6 * i) =
        (xyz_to_luv (rgb_to_xyz (gridRGB (gridSizeOf count) i))).x * 0.01 ∧
      rgbGridKernelBuf count buf (6 * i + 1) =
        (xyz_to_luv (rgb_to_xyz (gridRGB (gridSizeOf count) i))).y * 0.01 ∧
      rgbGridKernelBuf count buf (6 * i + 2) =
        (xyz_to_luv (rgb_to_xyz (gridRGB (gridSizeOf count) i))).z * 0.01 ∧
      rgbGridKernelBuf count buf (6 * i + 3) = (gridRGB (gridSizeOf count) i).x ∧
      rgbGridKernelBuf count buf (6 * i + 4) = (gridRGB (gridSizeOf count) i).y ∧
      rgbGridKernelBuf count buf (6 * i + 5) = (gridRGB (gridSizeOf count) i).z := by
  simp only [rgbGridKernelBuf, gridRGB]
  have h0 : 6 * i / 6 = i := by omega
  have h1 : (6 * i + 1) / 6 = i := by omega
  have h2 : (6 * i + 2) / 6 = i := by omega
  have h3 : (6 * i + 3) / 6 = i := by omega
  have h4 : (6 * i + 4) / 6 = i := by omega
  have h5 : (6 * i + 5) / 6 = i := by omega
  have m0 : 6 * i % 6 = 0 := by omega
  have m1 : (6 * i + 1) % 6 = 1 := by omega
  have m2 : (6 * i + 2) % 6 = 2 := by omega
  have m3 : (6 * i + 3) % 6 = 3 := by omega
  have m4 : (6 * i + 4) % 6 = 4 := by omega
  have m5 : (6 * i + 5) % 6 = 5 := by omega
  refine ⟨?_, ?_, ?_, ?_, ?_, ?_⟩ <;>
    simp [h0, h1, h2, h3, h4, h5, m0, m1, m2, m3, m4, m5, hi]

/-- Shared helper: the transform dispatched by generateCloud (zero
translation, rotation (0,0,pi/2), unit scale) is exactly the rotation by
pi/2 about Z. -/
theorem transformPoint_rot90 (p : Vec3) :
    transformPoint
        (TransformU.mk (Vec3.mk 0 0 0) (Vec3.mk 0 0 (Real.pi / 2)) (Vec3.mk 1 1 1)) p =
      rotZ (Real.pi / 2) p := by
  have hz : Real.pi / 2 ≠ 0 := by positivity
  simp [transformPoint, rotatePoint, rotZ, hz]

/-- C8: the CIELUV grid generator with cubic grid size n produces
exactly n^3 points; for every point index i below n^3 its RGB is the
grid coordinate triple (i mod n, (i/n) mod n, i/n^2) normalized by
n - 1; its stored position is the CIELUV value of that RGB (through
rgb_to_xyz and xyz_to_luv) scaled by 0.01 with the one fixed 90-degree
rotation about Z applied after generation; and its stored colour
attribute is the original RGB triple. -/
theorem c8_cieluv_grid_generator (n i : ℕ) (buf : ℕ → ℝ)
    (hn : 2 ≤ n) (hi : i < n * n * n) :
    ciePointCount n = n * n * n ∧
      generateCloudCIELUV n buf (6 * i) =
        (rotZ (Real.pi / 2) (scale001 (xyz_to_luv (rgb_to_xyz (gridRGB n i))))).x ∧
      generateCloudCIELUV n buf (6 * i + 1) =
        (rotZ (Real.pi / 2) (scale001 (xyz_to_luv (rgb_to_xyz (gridRGB n i))))).y ∧
      generateCloudCIELUV n buf (6 * i + 2) =
        (rotZ (Real.pi / 2) (scale001 (xyz_to_luv (rgb_to_xyz (gridRGB n i))))).z ∧
      generateCloudCIELUV n buf (6 * i + 3) = (gridRGB n i).x ∧
      generateCloudCIELUV n buf (6 * i + 4) = (gridRGB n i).y ∧
      generateCloudCIELUV n buf (6 * i + 5) = (gridRGB n i).z := by
  have hcount : ciePointCount n = n * n * n := rfl
  have hgs : gridSizeOf (ciePointCount n) = n := gridSizeOf_cube n
  have hic : i < ciePointCount n := by rw [hcount]; exact hi
  obtain ⟨b0, b1, b2, b3, b4, b5⟩ :=
    rgbGridKernelBuf_record (ciePointCount n) buf i hic
  rw [hgs] at b0 b1 b2 b3 b4 b5
  obtain ⟨t0, t1, t2, t3, t4, t5⟩ :=
    applyTransformBuf_record (ciePointCount n)
      (TransformU.mk (Vec3.mk 0 0 0) (Vec3.mk 0 0 (Real.pi / 2)) (Vec3.mk 1 1 1))
      (rgbGridKernelBuf (ciePointCount n) buf) i hic
  refine ⟨hcount, ?_, ?_, ?_, ?_, ?_, ?_⟩ <;>
    simp only [generateCloudCIELUV, t0, t1, t2, t3, t4, t5, b0, b1, b2, b3, b4, b5,
      transformPoint_rot90, scale001]

/-- Witness for C8 at n = 2, i = 7 and the zero buffer. -/
theorem c8_cieluv_grid_generator_witness :
    2 ≤ 2 ∧ 7 < 2 * 2 * 2 ∧
      (ciePointCount 2 = 2 * 2 * 2 ∧
        generateCloudCIELUV 2 (fun _ => 0) (6 * 7) =
          (rotZ (Real.pi / 2) (scale001 (xyz_to_luv (rgb_to_xyz (gridRGB 2 7))))).x ∧
        generateCloudCIELUV 2 (fun _ => 0) (6 * 7 + 1) =
          (rotZ (Real.pi / 2) (scale001 (xyz_to_luv (rgb_to_xyz (gridRGB 2 7))))).y ∧
        generateCloudCIELUV 2 (fun _ => 0) (6 * 7 + 2) =
          (rotZ (Real.pi / 2) (scale001 (xyz_to_luv (rgb_to_xyz (gridRGB 2 7))))).z ∧
        generateCloudCIELUV 2 (fun _ => 0) (6 * 7 + 3) = (gridRGB 2 7).x ∧
        generateCloudCIELUV 2 (fun _ => 0) (6 * 7 + 4) = (gridRGB 2 7).y ∧
        generateCloudCIELUV 2 (fun _ => 0) (6 * 7 + 5) = (gridRGB 2 7).z) :=
  ⟨by norm_num, by norm_num,
    c8_cieluv_grid_generator 2 7 (fun _ => 0) (by norm_num) (by norm_num)⟩
